import Mathlib

/-!
Shallow embedding of the Safe Return risk engine.

Source files embedded:
- src/core/risk_engine.py : calculate_risk_level, process_checkin, get_risk_summary
- src/core/models.py      : ReleaseProfile.current_month, ReleaseProfile.progress_percentage,
                            MonthlyCheckin (Meta ordering), SupportTicket, Notification

Modelling conventions:
- Django model instances become Lean structures; the per-profile ticket and
  notification tables become lists carried in a `ProfileState`, in creation order.
- Python strings are `String`; Python `//` (floor division on ints) is `Int.fdiv`;
  Python `int()` applied to a nonnegative real is the floor, and in general
  truncates toward zero, modelled on exact rationals by `ratTrunc`.
- `SupportTicket.objects.get_or_create(...)` becomes a find-or-create on the
  profile's ticket list keyed on (ticket_type, status, is_auto_generated).
- Dates are day numbers (`Int`); `(today - release_date).days` is `today - release`.
-/

/-- One monthly check-in (src/core/models.py, MonthlyCheckin): the four enumerated
status fields are loosely-typed strings in the source, so they are `String` here. -/
structure MonthlyCheckin where
  month_index : Nat
  housing_status : String
  job_status : String
  mental_state : String
  family_status : String
deriving DecidableEq, Repr

/-- src/core/risk_engine.py lines 14-49: rule-based risk level. Mirrors the
`red_conditions` / `yellow_conditions` lists and the `any(...)` precedence chain. -/
def calculate_risk_level (checkin : MonthlyCheckin) : String :=
  let red_conditions : List Bool :=
    [checkin.mental_state == "bad",
     checkin.housing_status == "homeless"]
  let yellow_conditions : List Bool :=
    [checkin.job_status == "unemployed",
     checkin.family_status == "problematic",
     checkin.mental_state == "stressed",
     checkin.family_status == "no_contact"]
  if red_conditions.any (fun b => b) then "red"
  else if yellow_conditions.any (fun b => b) then "yellow"
  else "green"

example :
    calculate_risk_level
      { month_index := 1, housing_status := "temporary", job_status := "unemployed",
        mental_state := "bad", family_status := "problematic" } = "red" := by decide

example :
    calculate_risk_level
      { month_index := 1, housing_status := "stable", job_status := "employed",
        mental_state := "good", family_status := "supportive" } = "green" := by decide

/-- src/core/models.py, SupportTicket: the fields the risk engine reads or writes.
`release_profile` is implicit: tickets live in their profile's `ProfileState`. -/
structure SupportTicket where
  ticket_type : String
  status : String
  is_auto_generated : Bool
  notes : String
deriving DecidableEq, Repr

/-- src/core/models.py, Notification: `user` is the recipient's identifier. -/
structure Notification where
  user : String
  message : String
  link : String
deriving DecidableEq, Repr

/-- src/core/models.py, ReleaseProfile, restricted to what the risk engine touches,
together with the profile's ticket and notification tables (in creation order).
`user_id` identifies the beneficiary (`profile.user`); `assigned_case_worker` is
the caseworker's identifier when assigned. -/
structure ProfileState where
  id : Nat
  user_id : String
  user_full_name : String
  risk_level : String
  assigned_case_worker : Option String
  tickets : List SupportTicket
  notifications : List Notification
deriving DecidableEq, Repr

/-- The `get_or_create` lookup key used by process_checkin: ticket_type = cat,
status = open, is_auto_generated = True (release_profile is implicit). -/
def matchesKey (cat : String) (t : SupportTicket) : Bool :=
  t.ticket_type == cat && t.status == "open" && t.is_auto_generated

/-- One auto-ticket block of process_checkin (src/core/risk_engine.py lines 79-146):
`if cond: ticket, created = SupportTicket.objects.get_or_create(...); if created:
created_tickets.append(ticket); <emit alert>`. Returns the new ticket list, the
tickets appended to `created_tickets`, and the notifications emitted. `alert` is
the notification list the block emits when the ticket is freshly created (empty
for the job and social blocks, and when no caseworker is assigned). -/
def autoTicketStep (ts : List SupportTicket) (cond : Bool) (cat : String)
    (note : String) (alert : List Notification) :
    List SupportTicket × List SupportTicket × List Notification :=
  if cond then
    if ts.any (matchesKey cat) then (ts, [], [])
    else
      let t : SupportTicket := { ticket_type := cat, status := "open",
                                 is_auto_generated := true, notes := note }
      (ts ++ [t], [t], alert)
  else (ts, [], [])

/-- The beneficiary-facing `risk_messages` dict of process_checkin (lines 150-154).
The final branch is unreachable: `calculate_risk_level` only returns the three keys. -/
def risk_message (level : String) : String :=
  if level == "green" then "✅ حالتك مستقرة. استمر على هذا النهج!"
  else if level == "yellow" then "⚠️ هناك بعض المخاوف. سيتواصل معك أخصائي قريباً."
  else if level == "red" then "🚨 نحتاج للتواصل معك بشكل عاجل. يرجى الانتظار لمكالمة من الأخصائي."
  else ""

/-- The dict returned by process_checkin (src/core/risk_engine.py lines 161-166). -/
structure ProcessResult where
  old_risk_level : String
  new_risk_level : String
  risk_changed : Bool
  created_tickets : List SupportTicket
deriving DecidableEq, Repr

/-- One auto-ticket block, as data: the trigger condition, the ticket category,
the auto-generated note, and the alert emitted when the ticket is freshly created. -/
structure TicketBlock where
  cond : Bool
  cat : String
  note : String
  alert : List Notification
deriving DecidableEq, Repr

/-- Runs a sequence of auto-ticket blocks left to right over a ticket list,
accumulating the created tickets and the emitted notifications in block order.
process_checkin runs its four blocks through this. -/
def autoTicketBlocks (ts : List SupportTicket) :
    List TicketBlock → List SupportTicket × List SupportTicket × List Notification
  | [] => (ts, [], [])
  | blk :: rest =>
    let s := autoTicketStep ts blk.cond blk.cat blk.note blk.alert
    let r := autoTicketBlocks s.1 rest
    (r.1, s.2.1 ++ r.2.1, s.2.2 ++ r.2.2)

/-- The four auto-ticket blocks of process_checkin (src/core/risk_engine.py lines
79-146), in source order: psychological, housing, job, social. The caseworker
alert of the first two blocks is present only when a caseworker is assigned
(`if profile.assigned_case_worker:`); the job and social blocks never alert. -/
def checkinBlocks (profile : ProfileState) (checkin : MonthlyCheckin) :
    List TicketBlock :=
  let cwAlert : String → List Notification := fun msg =>
    match profile.assigned_case_worker with
    | some cw => [{ user := cw, message := msg,
                    link := "/caseworker/profile/" ++ toString profile.id ++ "/" }]
    | none => []
  [{ cond := checkin.mental_state == "bad", cat := "psychological",
     note := "إنشاء تلقائي: الحالة النفسية سيئة في الشهر " ++ toString checkin.month_index,
     alert := cwAlert ("⚠️ تنبيه: " ++ profile.user_full_name ++ " يحتاج دعم نفسي عاجل") },
   { cond := checkin.housing_status == "homeless", cat := "housing",
     note := "إنشاء تلقائي: بدون مأوى في الشهر " ++ toString checkin.month_index,
     alert := cwAlert ("🏠 تنبيه: " ++ profile.user_full_name ++ " بدون مأوى") },
   { cond := checkin.job_status == "unemployed", cat := "job",
     note := "إنشاء تلقائي: عاطل عن العمل في الشهر " ++ toString checkin.month_index,
     alert := [] },
   { cond := checkin.family_status == "problematic" || checkin.family_status == "no_contact",
     cat := "social",
     note := "إنشاء تلقائي: مشكلات عائلية في الشهر " ++ toString checkin.month_index,
     alert := [] }]

/-- src/core/risk_engine.py lines 52-166, process_checkin: classify, persist the
new risk level, run the four auto-ticket blocks in source order (psychological,
housing, job, social), emit the caseworker alerts of the first two blocks when
their ticket was freshly created and a caseworker is assigned, then notify the
beneficiary iff the risk level changed. Returns the updated profile state and
the result dict. -/
def process_checkin (profile : ProfileState) (checkin : MonthlyCheckin) :
    ProfileState × ProcessResult :=
  let new_risk_level := calculate_risk_level checkin
  let old_risk_level := profile.risk_level
  let s := autoTicketBlocks profile.tickets (checkinBlocks profile checkin)
  let created_tickets := s.2.1
  let cw_notifications := s.2.2
  let beneficiary_notifications : List Notification :=
    if new_risk_level != old_risk_level then
      [{ user := profile.user_id, message := risk_message new_risk_level,
         link := "/beneficiary/dashboard/" }]
    else []
  ({ profile with
      risk_level := new_risk_level,
      tickets := s.1,
      notifications := profile.notifications ++ cw_notifications
        ++ beneficiary_notifications },
   { old_risk_level := old_risk_level,
     new_risk_level := new_risk_level,
     risk_changed := old_risk_level != new_risk_level,
     created_tickets := created_tickets })

/-- src/core/models.py lines 134-141, ReleaseProfile.current_month: dates are day
numbers, `(timezone.now().date() - self.release_date).days` is `today - release`,
and Python `//` on ints is `Int.fdiv`. `none` models an absent release_date. -/
def current_month (release_date : Option Int) (today : Int) : Int :=
  match release_date with
  | none => 0
  | some release =>
    let days_since_release := today - release
    let month := Int.fdiv days_since_release 30 + 1
    min month 12

/-- Python `int()` on an exact rational: truncation toward zero. -/
def ratTrunc (q : ℚ) : Int :=
  if 0 ≤ q then ⌊q⌋ else ⌈q⌉

/-- src/core/models.py lines 143-146, ReleaseProfile.progress_percentage:
`min(100, int((current_month / 12) * 100))`, with the float expression
`(m / 12) * 100` modelled by its exact rational value (for every integer `m`
reachable as a current_month value the double rounding of the source agrees
with the exact value's truncation). -/
def progress_percentage (m : Int) : Int :=
  min 100 (ratTrunc ((m : ℚ) / 12 * 100))

/-- Spec-side formula of §4.1 for comparison: `min(100, round(current_month / 12 * 100))`. -/
def progress_percentage_spec (m : Int) : Int :=
  min 100 (round ((m : ℚ) / 12 * 100))

example : current_month (some 0) 90 = 4 := by decide
example : current_month (some 0) 330 = 12 := by decide
example : current_month (some 31) 0 = -1 := by decide
example : progress_percentage 12 = 100 := by
  unfold progress_percentage ratTrunc; norm_num

example : progress_percentage 2 = 16 := by
  unfold progress_percentage ratTrunc; norm_num

/-- src/core/models.py lines 218-222, MonthlyCheckin.Meta: default queryset
ordering is `['-month_index']`, so `profile.checkins.first()` returns the stored
check-in with the greatest month_index (the leftmost one on a tie, which the
`unique_together = ['release_profile', 'month_index']` constraint rules out).
The argument list is the profile's check-ins in creation (submission) order. -/
def checkins_first : List MonthlyCheckin → Option MonthlyCheckin
  | [] => none
  | c :: rest =>
    match checkins_first rest with
    | none => some c
    | some d => if d.month_index > c.month_index then some d else some c

/-- Spec-side selection of §4.5 for comparison: the most recent check-in by
submission recency, i.e. the last element of the creation-order list. -/
def latest_by_submission (checkins : List MonthlyCheckin) : Option MonthlyCheckin :=
  checkins.getLast?

/-- The dict returned by get_risk_summary; `latest_checkin` is `none` in the
no-check-in branch, where the source dict omits the key. -/
structure RiskSummary where
  risk_level : String
  factors : List String
  recommendations : List String
  latest_checkin : Option MonthlyCheckin
deriving DecidableEq, Repr

/-- src/core/risk_engine.py lines 169-217, get_risk_summary: reads
`profile.checkins.first()` (Meta ordering `-month_index`), then builds one
factor and recommendation per matching condition, in source order. -/
def get_risk_summary (profile_risk_level : String)
    (checkins : List MonthlyCheckin) : RiskSummary :=
  match checkins_first checkins with
  | none =>
    { risk_level := "green", factors := [],
      recommendations := ["يرجى إكمال أول متابعة شهرية"], latest_checkin := none }
  | some latest_checkin =>
    let factors :=
      (if latest_checkin.mental_state == "bad" then ["الحالة النفسية سيئة"] else [])
      ++ (if latest_checkin.housing_status == "homeless" then ["بدون مأوى"] else [])
      ++ (if latest_checkin.job_status == "unemployed" then ["عاطل عن العمل"] else [])
      ++ (if latest_checkin.family_status == "problematic" then ["مشكلات عائلية"] else [])
      ++ (if latest_checkin.family_status == "no_contact" then ["انقطاع التواصل الأسري"] else [])
    let recommendations :=
      (if latest_checkin.mental_state == "bad" then ["إحالة للدعم النفسي عبر خط تراحم"] else [])
      ++ (if latest_checkin.housing_status == "homeless" then ["التنسيق مع جمعية الإسكان الخيري"] else [])
      ++ (if latest_checkin.job_status == "unemployed" then ["عرض فرص العمل المتاحة في المنطقة"] else [])
      ++ (if latest_checkin.family_status == "problematic" then ["جلسة إرشاد أسري"] else [])
      ++ (if latest_checkin.family_status == "no_contact" then ["محاولة إعادة بناء الروابط الأسرية"] else [])
    { risk_level := profile_risk_level, factors := factors,
      recommendations := recommendations, latest_checkin := some latest_checkin }

/-! ### Helper lemmas about the ticket issuance policy -/

/-- Number of stored tickets matching the auto-ticket key of a category. -/
def countOpenAuto (ts : List SupportTicket) (cat : String) : Nat :=
  (ts.filter (matchesKey cat)).length

/-- The fresh ticket an auto-ticket block would create. -/
def freshTicket (cat : String) (note : String) : SupportTicket :=
  { ticket_type := cat, status := "open", is_auto_generated := true, notes := note }

lemma autoTicketStep_eq (ts : List SupportTicket) (cond : Bool) (cat note : String)
    (a : List Notification) :
    autoTicketStep ts cond cat note a =
      if cond && !(ts.any (matchesKey cat)) then
        (ts ++ [freshTicket cat note], [freshTicket cat note], a)
      else (ts, [], []) := by
  unfold autoTicketStep freshTicket
  cases cond with
  | false => simp
  | true => cases h : ts.any (matchesKey cat) <;> simp [h]

lemma matchesKey_freshTicket (cat cat' note : String) :
    matchesKey cat' (freshTicket cat note) = (cat == cat') := by
  simp [matchesKey, freshTicket]

lemma autoTicketStep_tickets_eq_append (ts : List SupportTicket) (cond : Bool)
    (cat note : String) (a : List Notification) :
    (autoTicketStep ts cond cat note a).1 = ts ++ (autoTicketStep ts cond cat note a).2.1 := by
  rw [autoTicketStep_eq]
  split <;> simp

lemma autoTicketBlocks_tickets_eq_append (ts : List SupportTicket)
    (blocks : List TicketBlock) :
    (autoTicketBlocks ts blocks).1 = ts ++ (autoTicketBlocks ts blocks).2.1 := by
  induction blocks generalizing ts with
  | nil => simp [autoTicketBlocks]
  | cons b rest ih =>
    simp only [autoTicketBlocks]
    rw [ih, autoTicketStep_tickets_eq_append]
    simp

lemma autoTicketBlocks_any (ts : List SupportTicket) (blocks : List TicketBlock)
    (p : SupportTicket → Bool) (h : ts.any p = true) :
    ((autoTicketBlocks ts blocks).1).any p = true := by
  rw [autoTicketBlocks_tickets_eq_append]
  simp [h]

lemma autoTicketStep_any_self (ts : List SupportTicket) (cat note : String)
    (a : List Notification) :
    ((autoTicketStep ts true cat note a).1).any (matchesKey cat) = true := by
  rw [autoTicketStep_eq]
  cases h : ts.any (matchesKey cat) <;>
    simp [h, matchesKey_freshTicket]

lemma autoTicketBlocks_establishes (ts : List SupportTicket)
    (blocks : List TicketBlock) (blk : TicketBlock) (hmem : blk ∈ blocks)
    (hc : blk.cond = true) :
    ((autoTicketBlocks ts blocks).1).any (matchesKey blk.cat) = true := by
  induction blocks generalizing ts with
  | nil => cases hmem
  | cons b rest ih =>
    simp only [autoTicketBlocks]
    rcases List.mem_cons.mp hmem with rfl | hmem'
    · refine autoTicketBlocks_any _ _ _ ?_
      rw [hc]
      exact autoTicketStep_any_self ts blk.cat blk.note blk.alert
    · exact ih _ hmem'

lemma autoTicketStep_no_create (ts : List SupportTicket) (cond : Bool)
    (cat note : String) (a : List Notification)
    (h : cond = true → ts.any (matchesKey cat) = true) :
    autoTicketStep ts cond cat note a = (ts, [], []) := by
  rw [autoTicketStep_eq]
  cases cond with
  | false => simp
  | true => simp [h rfl]

lemma autoTicketBlocks_no_create (ts : List SupportTicket)
    (blocks : List TicketBlock)
    (h : ∀ blk ∈ blocks, blk.cond = true → ts.any (matchesKey blk.cat) = true) :
    autoTicketBlocks ts blocks = (ts, [], []) := by
  induction blocks with
  | nil => rfl
  | cons b rest ih =>
    simp only [autoTicketBlocks]
    rw [autoTicketStep_no_create ts b.cond b.cat b.note b.alert
      (h b (List.mem_cons_self b rest))]
    rw [ih (fun blk hm => h blk (List.mem_cons_of_mem b hm))]
    simp

lemma countOpenAuto_append (ts : List SupportTicket) (t : SupportTicket)
    (cat : String) :
    countOpenAuto (ts ++ [t]) cat =
      countOpenAuto ts cat + (if matchesKey cat t then 1 else 0) := by
  simp only [countOpenAuto, List.filter_append, List.length_append]
  cases h : matchesKey cat t <;> simp [h, List.filter]

lemma countOpenAuto_eq_zero_of_any_false (ts : List SupportTicket) (cat : String)
    (h : ts.any (matchesKey cat) = false) : countOpenAuto ts cat = 0 := by
  simp only [countOpenAuto, List.length_eq_zero]
  rw [List.filter_eq_nil_iff]
  intro t hmem
  simpa using List.any_eq_false.mp h t hmem

lemma autoTicketStep_count (ts : List SupportTicket) (cond : Bool)
    (cat note cat' : String) (a : List Notification)
    (h : countOpenAuto ts cat' ≤ 1) :
    countOpenAuto ((autoTicketStep ts cond cat note a).1) cat' ≤ 1 := by
  rw [autoTicketStep_eq]
  by_cases hc : (cond && !(ts.any (matchesKey cat))) = true
  · rw [if_pos hc]
    simp only [countOpenAuto_append, matchesKey_freshTicket]
    by_cases hcat : (cat == cat') = true
    · have hcat' : cat = cat' := eq_of_beq hcat
      have hany : ts.any (matchesKey cat) = false := by
        simp only [Bool.and_eq_true, Bool.not_eq_true'] at hc
        exact hc.2
      rw [← hcat', countOpenAuto_eq_zero_of_any_false ts cat hany]
      simp [hcat]
    · simp only [hcat, if_false]
      simpa using h
  · rw [if_neg hc]
    exact h

lemma autoTicketBlocks_count (ts : List SupportTicket) (blocks : List TicketBlock)
    (cat' : String) (h : countOpenAuto ts cat' ≤ 1) :
    countOpenAuto ((autoTicketBlocks ts blocks).1) cat' ≤ 1 := by
  induction blocks generalizing ts with
  | nil => exact h
  | cons b rest ih =>
    simp only [autoTicketBlocks]
    exact ih _ (autoTicketStep_count ts b.cond b.cat b.note cat' b.alert h)

lemma autoTicketStep_notifs_subset (ts : List SupportTicket) (cond : Bool)
    (cat note : String) (a : List Notification) (n : Notification)
    (hn : n ∈ (autoTicketStep ts cond cat note a).2.2) : n ∈ a := by
  rw [autoTicketStep_eq] at hn
  by_cases hc : (cond && !(ts.any (matchesKey cat))) = true
  · rw [if_pos hc] at hn
    exact hn
  · rw [if_neg hc] at hn
    cases hn

lemma autoTicketBlocks_notifs_subset (ts : List SupportTicket)
    (blocks : List TicketBlock) (n : Notification)
    (hn : n ∈ (autoTicketBlocks ts blocks).2.2) :
    ∃ blk ∈ blocks, n ∈ blk.alert := by
  induction blocks generalizing ts with
  | nil => cases hn
  | cons b rest ih =>
    simp only [autoTicketBlocks] at hn
    rcases List.mem_append.mp hn with hl | hr
    · exact ⟨b, List.mem_cons_self b rest,
        autoTicketStep_notifs_subset ts b.cond b.cat b.note b.alert n hl⟩
    · obtain ⟨blk, hblk, hnb⟩ := ih _ hr
      exact ⟨blk, List.mem_cons_of_mem b hblk, hnb⟩

/-! ### Claim theorems: classifier and timeline -/

/-- Claim C1: `classify` returns red if mental_state is bad or housing_status is
homeless regardless of other fields (red strictly dominates); otherwise yellow if
at least one of job_status unemployed, family_status problematic, mental_state
stressed, family_status no_contact holds; otherwise green. -/
theorem claim_C1_classify_precedence (c : MonthlyCheckin) :
    ((c.mental_state = "bad" ∨ c.housing_status = "homeless") →
      calculate_risk_level c = "red") ∧
    (c.mental_state ≠ "bad" → c.housing_status ≠ "homeless" →
      (c.job_status = "unemployed" ∨ c.family_status = "problematic" ∨
        c.mental_state = "stressed" ∨ c.family_status = "no_contact") →
      calculate_risk_level c = "yellow") ∧
    (c.mental_state ≠ "bad" → c.housing_status ≠ "homeless" →
      c.job_status ≠ "unemployed" → c.family_status ≠ "problematic" →
      c.mental_state ≠ "stressed" → c.family_status ≠ "no_contact" →
      calculate_risk_level c = "green") := by
  unfold calculate_risk_level
  refine ⟨?_, ?_, ?_⟩
  · rintro (h | h) <;> simp [h]
  · intro h1 h2 h3
    rcases h3 with h | h | h | h <;> simp [h, h1, h2]
  · intro h1 h2 h3 h4 h5 h6
    simp [h1, h2, h3, h4, h5, h6]

/-- Witness for C1: the mixed red-and-yellow report of §8 classifies red. -/
theorem claim_C1_classify_precedence_witness :
    calculate_risk_level
      { month_index := 1, housing_status := "temporary", job_status := "unemployed",
        mental_state := "bad", family_status := "problematic" } = "red" :=
  (claim_C1_classify_precedence _).1 (Or.inl rfl)

/-- Claim C10: `classify` is total over arbitrary strings; any field value outside
its enumerated trigger set matches no red or yellow condition, so a report whose
fields are all unrecognized strings classifies green rather than failing. -/
theorem claim_C10_classify_total_unrecognized (c : MonthlyCheckin)
    (hm : c.mental_state ≠ "bad") (hm' : c.mental_state ≠ "stressed")
    (hh : c.housing_status ≠ "homeless")
    (hj : c.job_status ≠ "unemployed")
    (hf : c.family_status ≠ "problematic") (hf' : c.family_status ≠ "no_contact") :
    calculate_risk_level c = "green" := by
  unfold calculate_risk_level
  simp [hm, hm', hh, hj, hf, hf']

/-- Witness for C10: a report of misspelled, out-of-enumeration strings
(including the misspelled homeless value) classifies green. -/
theorem claim_C10_classify_total_unrecognized_witness :
    calculate_risk_level
      { month_index := 1, housing_status := "homless", job_status := "unemployd",
        mental_state := "fine", family_status := "estranged" } = "green" :=
  claim_C10_classify_total_unrecognized _ (by decide) (by decide) (by decide)
    (by decide) (by decide) (by decide)

/-- Claim C5 counterexample: the claim says current_month always returns a value
in {0,...,12} even for a release_date after today, but with release_date 31 days
in the future the source computes (-31 // 30) + 1 = -1, a negative value. -/
theorem claim_C5_counterexample :
    current_month (some 31) 0 = -1 ∧ current_month (some 31) 0 < 0 := by
  refine ⟨by decide, by decide⟩

/-- Claim C5 amended: current_month returns 0 when release_date is absent, never
exceeds 12 and never raises, and whenever release_date ≤ today the result lies in
[1, 12]; the lower clamp fails only for a release_date in the future, where the
result can be negative. -/
theorem claim_C5_amended_range :
    (∀ today : Int, current_month none today = 0) ∧
    (∀ release today : Int, current_month (some release) today ≤ 12) ∧
    (∀ release today : Int, release ≤ today →
      1 ≤ current_month (some release) today ∧
        current_month (some release) today ≤ 12) := by
  refine ⟨fun _ => rfl, fun release today => ?_, fun release today h => ⟨?_, ?_⟩⟩
  · exact min_le_right _ _
  · unfold current_month
    refine le_min ?_ (by norm_num)
    have hd : 0 ≤ today - release := by omega
    have := Int.fdiv_nonneg hd (by norm_num : (0:Int) ≤ 30)
    omega
  · exact min_le_right _ _

/-- Witness for C5 amended: a release 100 days before today sits in [1, 12]. -/
theorem claim_C5_amended_range_witness :
    1 ≤ current_month (some 0) 100 ∧ current_month (some 0) 100 ≤ 12 :=
  claim_C5_amended_range.2.2 0 100 (by decide)

/-- Claim C6 counterexample: the claim says progress_percentage rounds, but the
source truncates (`int(...)`): at current_month 2 (reachable, e.g. release 30
days ago) the code yields 16 while the claimed rounding formula yields 17. -/
theorem claim_C6_counterexample :
    current_month (some 0) 30 = 2 ∧ progress_percentage 2 = 16 ∧
      progress_percentage_spec 2 = 17 := by
  refine ⟨by decide, ?_, ?_⟩
  · unfold progress_percentage ratTrunc
    norm_num
  · unfold progress_percentage_spec
    rw [round_eq]
    norm_num

/-- Claim C6 amended: progress_percentage(m) equals min(100, trunc(m / 12 * 100))
with truncation toward zero rather than rounding; for every nonnegative m this is
min(100, ⌊m·100 / 12⌋), and with a release date 330 days in the past current_month
is 12 and progress_percentage is 100. -/
theorem claim_C6_amended_truncation :
    (∀ m : Int, 0 ≤ m → progress_percentage m = min 100 ((m * 100) / 12)) ∧
    (∀ release today : Int, today - release = 330 →
      current_month (some release) today = 12 ∧
        progress_percentage (current_month (some release) today) = 100) := by
  constructor
  · intro m hm
    unfold progress_percentage ratTrunc
    have hq : (0:ℚ) ≤ (m : ℚ) / 12 * 100 := by positivity
    rw [if_pos hq]
    have hcast : ((m : ℚ) / 12 * 100) = ((m * 100 : ℤ) : ℚ) / ((12 : ℕ) : ℚ) := by
      push_cast
      ring
    rw [hcast, Rat.floor_intCast_div_natCast]
    norm_num
  · intro release today h
    have hcm : current_month (some release) today = 12 := by
      show min (Int.fdiv (today - release) 30 + 1) 12 = 12
      rw [h]
      decide
    refine ⟨hcm, ?_⟩
    rw [hcm]
    unfold progress_percentage ratTrunc
    norm_num

/-- Witness for C6 amended: the truncation formula at m = 2 and the 330-day
scenario. -/
theorem claim_C6_amended_truncation_witness :
    progress_percentage 2 = min 100 ((2 * 100) / 12) ∧
      current_month (some 0) 330 = 12 ∧
      progress_percentage (current_month (some 0) 330) = 100 :=
  ⟨claim_C6_amended_truncation.1 2 (by decide),
   (claim_C6_amended_truncation.2 0 330 (by decide)).1,
   (claim_C6_amended_truncation.2 0 330 (by decide)).2⟩

/-! ### Claim theorems: risk summary reporter -/

lemma checkins_first_eq_none (cs : List MonthlyCheckin) :
    checkins_first cs = none ↔ cs = [] := by
  cases cs with
  | nil => simp [checkins_first]
  | cons a rest =>
    simp only [checkins_first]
    cases checkins_first rest with
    | none => simp
    | some d =>
      simp only [List.cons_ne_nil, iff_false]
      split <;> simp

lemma checkins_first_spec (cs : List MonthlyCheckin) (c : MonthlyCheckin)
    (h : checkins_first cs = some c) :
    c ∈ cs ∧ ∀ d ∈ cs, d.month_index ≤ c.month_index := by
  induction cs generalizing c with
  | nil => cases h
  | cons a rest ih =>
    simp only [checkins_first] at h
    cases hr : checkins_first rest with
    | none =>
      rw [hr] at h
      have hrest : rest = [] := (checkins_first_eq_none rest).mp hr
      subst hrest
      cases h
      exact ⟨List.mem_cons_self _ _, by simp⟩
    | some d =>
      rw [hr] at h
      have h' : (if d.month_index > a.month_index then some d else some a) = some c := h
      obtain ⟨hdmem, hdmax⟩ := ih d hr
      by_cases hgt : d.month_index > a.month_index
      · rw [if_pos hgt] at h'
        cases h'
        refine ⟨List.mem_cons_of_mem a hdmem, ?_⟩
        intro e he
        rcases List.mem_cons.mp he with rfl | he'
        · exact Nat.le_of_lt hgt
        · exact hdmax e he'
      · rw [if_neg hgt] at h'
        cases h'
        refine ⟨List.mem_cons_self _ _, ?_⟩
        intro e he
        rcases List.mem_cons.mp he with rfl | he'
        · exact Nat.le_refl _
        · exact Nat.le_trans (hdmax e he') (Nat.le_of_not_lt hgt)

/-- Claim C7 counterexample: with a month-3 report submitted first and a month-2
report backfilled afterwards, summarize reads the month-3 report (Meta ordering
is by month index descending), not the most recently submitted month-2 report as
the claim states. -/
theorem claim_C7_counterexample :
    (get_risk_summary "green"
        [{ month_index := 3, housing_status := "stable", job_status := "employed",
           mental_state := "good", family_status := "supportive" },
         { month_index := 2, housing_status := "stable", job_status := "employed",
           mental_state := "bad", family_status := "supportive" }]).latest_checkin =
      some { month_index := 3, housing_status := "stable", job_status := "employed",
             mental_state := "good", family_status := "supportive" } ∧
    latest_by_submission
        [{ month_index := 3, housing_status := "stable", job_status := "employed",
           mental_state := "good", family_status := "supportive" },
         { month_index := 2, housing_status := "stable", job_status := "employed",
           mental_state := "bad", family_status := "supportive" }] =
      some { month_index := 2, housing_status := "stable", job_status := "employed",
             mental_state := "bad", family_status := "supportive" } ∧
    (get_risk_summary "green"
        [{ month_index := 3, housing_status := "stable", job_status := "employed",
           mental_state := "good", family_status := "supportive" },
         { month_index := 2, housing_status := "stable", job_status := "employed",
           mental_state := "bad", family_status := "supportive" }]).latest_checkin ≠
      latest_by_submission
        [{ month_index := 3, housing_status := "stable", job_status := "employed",
           mental_state := "good", family_status := "supportive" },
         { month_index := 2, housing_status := "stable", job_status := "employed",
           mental_state := "bad", family_status := "supportive" }] := by
  refine ⟨by decide, by decide, by decide⟩

/-- Claim C7 amended: summarize selects the report with the greatest month index
(the Django Meta ordering is -month_index), not the most recently submitted one;
a backfilled earlier month is not selected while a later-month report exists.
If no report exists it returns tier green, empty factors, and the single
first-submission recommendation. -/
theorem claim_C7_amended_selection :
    (∀ risk : String, get_risk_summary risk [] =
      { risk_level := "green", factors := [],
        recommendations := ["يرجى إكمال أول متابعة شهرية"], latest_checkin := none }) ∧
    (∀ (risk : String) (checkins : List MonthlyCheckin) (c : MonthlyCheckin),
      (get_risk_summary risk checkins).latest_checkin = some c →
      c ∈ checkins ∧ ∀ d ∈ checkins, d.month_index ≤ c.month_index) := by
  constructor
  · intro risk
    rfl
  · intro risk checkins c h
    cases hcf : checkins_first checkins with
    | none =>
      rw [get_risk_summary, hcf] at h
      cases h
    | some l =>
      rw [get_risk_summary, hcf] at h
      simp only [RiskSummary.mk.injEq] at h
      obtain rfl : l = c := Option.some.inj h
      exact checkins_first_spec checkins l hcf

/-- Witness for C7 amended: applied to a single stored report, which summarize
selects. -/
theorem claim_C7_amended_selection_witness :
    ({ month_index := 2, housing_status := "stable", job_status := "employed",
       mental_state := "bad", family_status := "supportive" } : MonthlyCheckin) ∈
      [({ month_index := 2, housing_status := "stable", job_status := "employed",
          mental_state := "bad", family_status := "supportive" } : MonthlyCheckin)] :=
  (claim_C7_amended_selection.2 "green" _ _ (by decide)).1

/-! ### Claim theorems: case progression orchestrator -/

lemma autoTicketStep_created (ts : List SupportTicket) (cond : Bool)
    (cat note : String) (a : List Notification) :
    (autoTicketStep ts cond cat note a).2.1 =
      if cond && !(ts.any (matchesKey cat)) then [freshTicket cat note] else [] := by
  rw [autoTicketStep_eq]
  by_cases h : (cond && !(ts.any (matchesKey cat))) = true
  · rw [if_pos h, if_pos h]
  · rw [if_neg h, if_neg h]

lemma autoTicketStep_notifs (ts : List SupportTicket) (cond : Bool)
    (cat note : String) (a : List Notification) :
    (autoTicketStep ts cond cat note a).2.2 =
      if cond && !(ts.any (matchesKey cat)) then a else [] := by
  rw [autoTicketStep_eq]
  by_cases h : (cond && !(ts.any (matchesKey cat))) = true
  · rw [if_pos h, if_pos h]
  · rw [if_neg h, if_neg h]

lemma autoTicketStep_tickets (ts : List SupportTicket) (cond : Bool)
    (cat note : String) (a : List Notification) :
    (autoTicketStep ts cond cat note a).1 =
      if cond && !(ts.any (matchesKey cat)) then ts ++ [freshTicket cat note]
      else ts := by
  rw [autoTicketStep_eq]
  by_cases h : (cond && !(ts.any (matchesKey cat))) = true
  · rw [if_pos h, if_pos h]
  · rw [if_neg h, if_neg h]

lemma autoTicketBlocks_second_no_create (ts : List SupportTicket)
    (blocks blocks' : List TicketBlock)
    (hk : blocks'.map (fun b => (b.cond, b.cat)) =
      blocks.map (fun b => (b.cond, b.cat))) :
    autoTicketBlocks (autoTicketBlocks ts blocks).1 blocks' =
      ((autoTicketBlocks ts blocks).1, [], []) := by
  apply autoTicketBlocks_no_create
  intro blk hmem hc
  have hpair : (blk.cond, blk.cat) ∈ blocks.map (fun b => (b.cond, b.cat)) := by
    rw [← hk]
    exact List.mem_map_of_mem _ hmem
  obtain ⟨b0, hb0, hpeq⟩ := List.mem_map.mp hpair
  have hcond : b0.cond = true := by
    have h1 : b0.cond = blk.cond := congrArg Prod.fst hpeq
    rw [h1, hc]
  have hcat : b0.cat = blk.cat := congrArg Prod.snd hpeq
  rw [← hcat]
  exact autoTicketBlocks_establishes ts blocks b0 hb0 hcond

lemma no_openAuto_matchesKey (ts : List SupportTicket)
    (h : ts.any (fun t => t.status == "open" && t.is_auto_generated) = false)
    (cat : String) : ts.any (matchesKey cat) = false := by
  rw [List.any_eq_false] at h ⊢
  intro t ht
  have h2 := h t ht
  simp only [matchesKey, Bool.and_eq_true, beq_iff_eq, Bool.not_eq_true,
    Bool.and_eq_false_imp] at h2 ⊢
  tauto

lemma autoTicketBlocks_created_types (ts : List SupportTicket)
    (blocks : List TicketBlock)
    (hfresh : ∀ blk ∈ blocks, ts.any (matchesKey blk.cat) = false)
    (hdist : blocks.Pairwise (fun a b => a.cat ≠ b.cat)) :
    ((autoTicketBlocks ts blocks).2.1).map (fun t => t.ticket_type) =
      (blocks.filter (fun b => b.cond)).map (fun b => b.cat) := by
  induction blocks generalizing ts with
  | nil => rfl
  | cons b rest ih =>
    simp only [autoTicketBlocks]
    have hb : ts.any (matchesKey b.cat) = false := hfresh b (List.mem_cons_self b rest)
    rw [List.pairwise_cons] at hdist
    obtain ⟨hbne, hdist'⟩ := hdist
    cases hc : b.cond with
    | false =>
      have hstep : autoTicketStep ts false b.cat b.note b.alert = (ts, [], []) := by
        rw [autoTicketStep_eq]
        simp
      rw [hstep]
      have := ih ts (fun blk hm => hfresh blk (List.mem_cons_of_mem b hm)) hdist'
      simpa [List.filter_cons, hc] using this
    | true =>
      have hstep : autoTicketStep ts true b.cat b.note b.alert =
          (ts ++ [freshTicket b.cat b.note], [freshTicket b.cat b.note], b.alert) := by
        rw [autoTicketStep_eq, hb]
        simp
      rw [hstep]
      have hfresh' : ∀ blk ∈ rest,
          (ts ++ [freshTicket b.cat b.note]).any (matchesKey blk.cat) = false := by
        intro blk hm
        have h1 := hfresh blk (List.mem_cons_of_mem b hm)
        have h2 : b.cat ≠ blk.cat := hbne blk hm
        simp [List.any_append, h1, matchesKey_freshTicket, h2]
      dsimp only
      rw [List.map_append, ih _ hfresh' hdist']
      simp [List.filter_cons, hc, freshTicket]

/-- A sample profile state used by concrete witnesses: green tier, caseworker
cw1 assigned, no stored tickets or notifications. -/
def sampleProfile : ProfileState :=
  { id := 1, user_id := "u1", user_full_name := "أحمد", risk_level := "green",
    assigned_case_worker := some "cw1", tickets := [], notifications := [] }

/-- The §8 scenario report: mental_state bad, housing temporary, unemployed,
problematic family. -/
def sampleCheckin : MonthlyCheckin :=
  { month_index := 1, housing_status := "temporary", job_status := "unemployed",
    mental_state := "bad", family_status := "problematic" }

/-- Claim C9: after process the persisted risk tier equals classify(report) (the
write is unconditional, so this holds also when the tier is unchanged), and the
returned result carries old_tier = the tier before the call, new_tier =
classify(report), tier_changed exactly when they differ, and the created-ticket
list, which is exactly what was appended to the ticket store. -/
theorem claim_C9_process_result (p : ProfileState) (c : MonthlyCheckin) :
    (process_checkin p c).1.risk_level = calculate_risk_level c ∧
    (process_checkin p c).2.old_risk_level = p.risk_level ∧
    (process_checkin p c).2.new_risk_level = calculate_risk_level c ∧
    ((process_checkin p c).2.risk_changed = true ↔
      p.risk_level ≠ calculate_risk_level c) ∧
    (process_checkin p c).1.tickets =
      p.tickets ++ (process_checkin p c).2.created_tickets := by
  refine ⟨rfl, rfl, rfl, ?_, ?_⟩
  · show (p.risk_level != calculate_risk_level c) = true ↔
      p.risk_level ≠ calculate_risk_level c
    exact bne_iff_ne
  · show (autoTicketBlocks p.tickets (checkinBlocks p c)).1 =
      p.tickets ++ (autoTicketBlocks p.tickets (checkinBlocks p c)).2.1
    exact autoTicketBlocks_tickets_eq_append _ _

/-- Claim C3: processing the identical report twice is idempotent on tickets:
the second call creates zero new tickets, and process preserves the at-most-one
open auto-generated ticket per category invariant. -/
theorem claim_C3_ticket_idempotence (p : ProfileState) (c : MonthlyCheckin) :
    (process_checkin (process_checkin p c).1 c).2.created_tickets = [] ∧
    (∀ cat : String, countOpenAuto p.tickets cat ≤ 1 →
      countOpenAuto (process_checkin p c).1.tickets cat ≤ 1) := by
  constructor
  · have hk : (checkinBlocks (process_checkin p c).1 c).map (fun b => (b.cond, b.cat)) =
        (checkinBlocks p c).map (fun b => (b.cond, b.cat)) := rfl
    have key := autoTicketBlocks_second_no_create p.tickets (checkinBlocks p c)
      (checkinBlocks (process_checkin p c).1 c) hk
    show (autoTicketBlocks (autoTicketBlocks p.tickets (checkinBlocks p c)).1
        (checkinBlocks (process_checkin p c).1 c)).2.1 = []
    rw [key]
  · intro cat hcat
    show countOpenAuto (autoTicketBlocks p.tickets (checkinBlocks p c)).1 cat ≤ 1
    exact autoTicketBlocks_count _ _ _ hcat

/-- Witness for C3: the scenario report processed twice from a fresh profile
creates nothing on the second call, and the ticket count stays at most one. -/
theorem claim_C3_ticket_idempotence_witness :
    (process_checkin (process_checkin sampleProfile sampleCheckin).1
        sampleCheckin).2.created_tickets = [] ∧
    countOpenAuto (process_checkin sampleProfile sampleCheckin).1.tickets "job" ≤ 1 :=
  ⟨(claim_C3_ticket_idempotence sampleProfile sampleCheckin).1,
   (claim_C3_ticket_idempotence sampleProfile sampleCheckin).2 "job" (by decide)⟩

lemma process_checkin_notifications (p : ProfileState) (c : MonthlyCheckin) :
    (process_checkin p c).1.notifications.drop p.notifications.length =
      (autoTicketBlocks p.tickets (checkinBlocks p c)).2.2 ++
        (if calculate_risk_level c != p.risk_level then
          [{ user := p.user_id, message := risk_message (calculate_risk_level c),
             link := "/beneficiary/dashboard/" }]
        else []) := by
  show (p.notifications ++ (autoTicketBlocks p.tickets (checkinBlocks p c)).2.2 ++
      (if calculate_risk_level c != p.risk_level then
        ([{ user := p.user_id, message := risk_message (calculate_risk_level c),
            link := "/beneficiary/dashboard/" }] : List Notification)
      else [])).drop p.notifications.length = _
  rw [List.append_assoc]
  exact List.drop_left _ _

lemma checkinBlocks_alert_recipient (p : ProfileState) (c : MonthlyCheckin)
    (blk : TicketBlock) (n : Notification) (hmem : blk ∈ checkinBlocks p c)
    (hn : n ∈ blk.alert) : p.assigned_case_worker = some n.user := by
  cases hcw : p.assigned_case_worker with
  | none =>
    simp only [checkinBlocks, hcw, List.mem_cons, List.not_mem_nil, or_false] at hmem
    rcases hmem with rfl | rfl | rfl | rfl <;> cases hn
  | some cw =>
    simp only [checkinBlocks, hcw, List.mem_cons, List.not_mem_nil, or_false] at hmem
    rcases hmem with rfl | rfl | rfl | rfl
    · rw [List.mem_singleton] at hn
      rw [hn]
    · rw [List.mem_singleton] at hn
      rw [hn]
    · cases hn
    · cases hn

/-- Claim C4: in every process invocation a notification to the beneficiary
themself is emitted iff the newly classified tier differs from the previous
tier: exactly one when it changed, with the message template determined by the
new tier, and none when unchanged. The hypothesis reflects the role invariant
that the assigned caseworker is a different person than the beneficiary. -/
theorem claim_C4_beneficiary_notification (p : ProfileState) (c : MonthlyCheckin)
    (hcw : ∀ cw, p.assigned_case_worker = some cw → cw ≠ p.user_id) :
    ((process_checkin p c).1.notifications.drop p.notifications.length).filter
        (fun n => n.user == p.user_id) =
      (if p.risk_level ≠ calculate_risk_level c then
        [{ user := p.user_id, message := risk_message (calculate_risk_level c),
           link := "/beneficiary/dashboard/" }]
      else []) := by
  rw [process_checkin_notifications, List.filter_append]
  have hcwnil : ((autoTicketBlocks p.tickets (checkinBlocks p c)).2.2).filter
      (fun n => n.user == p.user_id) = [] := by
    rw [List.filter_eq_nil_iff]
    intro n hn
    obtain ⟨blk, hblk, hna⟩ := autoTicketBlocks_notifs_subset _ _ n hn
    have hrec := checkinBlocks_alert_recipient p c blk n hblk hna
    have hne := hcw n.user hrec
    simpa using hne
  rw [hcwnil, List.nil_append]
  by_cases hch : p.risk_level = calculate_risk_level c
  · simp [hch]
  · have hb : (calculate_risk_level c != p.risk_level) = true :=
      bne_iff_ne.mpr (fun hh => hch hh.symm)
    simp [hb, hch]

/-- Witness for C4: the scenario report moves the sample profile from green to
red, so exactly one red-template notification reaches the beneficiary. -/
theorem claim_C4_beneficiary_notification_witness :
    ((process_checkin sampleProfile sampleCheckin).1.notifications.drop
        sampleProfile.notifications.length).filter
      (fun n => n.user == sampleProfile.user_id) =
      (if sampleProfile.risk_level ≠ calculate_risk_level sampleCheckin then
        [{ user := sampleProfile.user_id,
           message := risk_message (calculate_risk_level sampleCheckin),
           link := "/beneficiary/dashboard/" }]
      else []) :=
  claim_C4_beneficiary_notification sampleProfile sampleCheckin
    (by intro cw hcw; cases hcw; decide)

/-- Claim C2 counterexample: the profile already holds an open auto-generated
psychological ticket, the report has mental_state bad, and caseworker cw1 is
assigned; the claim says a caseworker notification is always emitted for the
psychological trigger, yet the invocation emits no notification to cw1 (the
source notifies only inside `if created:`, and the find-or-create deduplicates). -/
theorem claim_C2_counterexample :
    ({ month_index := 2, housing_status := "stable", job_status := "employed",
       mental_state := "bad", family_status := "supportive" } : MonthlyCheckin).mental_state
        = "bad" ∧
    ({ id := 1, user_id := "u1", user_full_name := "أحمد", risk_level := "green",
       assigned_case_worker := some "cw1",
       tickets := [{ ticket_type := "psychological", status := "open",
                     is_auto_generated := true, notes := "" }],
       notifications := [] } : ProfileState).assigned_case_worker = some "cw1" ∧
    ((process_checkin
        { id := 1, user_id := "u1", user_full_name := "أحمد", risk_level := "green",
          assigned_case_worker := some "cw1",
          tickets := [{ ticket_type := "psychological", status := "open",
                        is_auto_generated := true, notes := "" }],
          notifications := [] }
        { month_index := 2, housing_status := "stable", job_status := "employed",
          mental_state := "bad", family_status := "supportive" }).1.notifications.filter
      (fun n => n.user == "cw1")) = [] := by
  refine ⟨rfl, rfl, by decide⟩

/-- Claim C2 amended: for the psychological and housing triggers a notification
to the assigned caseworker is emitted iff the find-or-create actually created a
new ticket this invocation (the trigger condition holds and no open
auto-generated ticket of that category pre-exists); when ticket creation is
deduplicated, no caseworker alert is emitted. -/
theorem claim_C2_amended_alert_iff_created (p : ProfileState) (c : MonthlyCheckin)
    (cw : String) (hcw : p.assigned_case_worker = some cw) (hne : cw ≠ p.user_id) :
    ((process_checkin p c).1.notifications.drop p.notifications.length).filter
        (fun n => n.user == cw) =
      (if c.mental_state == "bad" && !(p.tickets.any (matchesKey "psychological")) then
        ([{ user := cw,
            message := "⚠️ تنبيه: " ++ p.user_full_name ++ " يحتاج دعم نفسي عاجل",
            link := "/caseworker/profile/" ++ toString p.id ++ "/" }] : List Notification)
      else []) ++
      (if c.housing_status == "homeless" && !(p.tickets.any (matchesKey "housing")) then
        ([{ user := cw,
            message := "🏠 تنبيه: " ++ p.user_full_name ++ " بدون مأوى",
            link := "/caseworker/profile/" ++ toString p.id ++ "/" }] : List Notification)
      else []) := by
  rw [process_checkin_notifications, List.filter_append]
  have hben : (List.filter (fun n => n.user == cw)
      (if calculate_risk_level c != p.risk_level then
        ([{ user := p.user_id, message := risk_message (calculate_risk_level c),
            link := "/beneficiary/dashboard/" }] : List Notification)
      else [])) = [] := by
    have hid : (p.user_id == cw) = false := beq_eq_false_iff_ne.mpr (Ne.symm hne)
    split
    · simp [hid]
    · rfl
  rw [hben, List.append_nil]
  cases h1 : (c.mental_state == "bad") <;>
    cases hp : (p.tickets.any (matchesKey "psychological")) <;>
      cases h2 : (c.housing_status == "homeless") <;>
        cases hh : (p.tickets.any (matchesKey "housing")) <;>
          simp [checkinBlocks, hcw, autoTicketBlocks, autoTicketStep_notifs,
            autoTicketStep_tickets, h1, h2, hp, hh, List.any_append,
            matchesKey_freshTicket, List.filter_append, ite_self]

/-- Witness for C2 amended: the scenario report on the fresh sample profile
creates the psychological ticket (no housing ticket), so exactly the
psychological alert reaches caseworker cw1. -/
theorem claim_C2_amended_alert_iff_created_witness :
    ((process_checkin sampleProfile sampleCheckin).1.notifications.drop
        sampleProfile.notifications.length).filter
      (fun n => n.user == "cw1") =
      (if sampleCheckin.mental_state == "bad"
          && !(sampleProfile.tickets.any (matchesKey "psychological")) then
        ([{ user := "cw1",
            message := "⚠️ تنبيه: " ++ sampleProfile.user_full_name ++ " يحتاج دعم نفسي عاجل",
            link := "/caseworker/profile/" ++ toString sampleProfile.id ++ "/" }] :
          List Notification)
      else []) ++
      (if sampleCheckin.housing_status == "homeless"
          && !(sampleProfile.tickets.any (matchesKey "housing")) then
        ([{ user := "cw1",
            message := "🏠 تنبيه: " ++ sampleProfile.user_full_name ++ " بدون مأوى",
            link := "/caseworker/profile/" ++ toString sampleProfile.id ++ "/" }] :
          List Notification)
      else []) :=
  claim_C2_amended_alert_iff_created sampleProfile sampleCheckin "cw1" rfl (by decide)

/-- Claim C8: starting with no pre-existing open auto-generated tickets, the
categories of the tickets created by one process invocation are exactly
psychological iff mental_state is bad, housing iff housing_status is homeless,
job iff job_status is unemployed, social iff family_status is problematic or
no_contact — zero to four tickets, at most one per category, in source order. -/
theorem claim_C8_created_categories (p : ProfileState) (c : MonthlyCheckin)
    (h : p.tickets.any (fun t => t.status == "open" && t.is_auto_generated) = false) :
    ((process_checkin p c).2.created_tickets).map (fun t => t.ticket_type) =
      (if c.mental_state == "bad" then ["psychological"] else []) ++
      (if c.housing_status == "homeless" then ["housing"] else []) ++
      (if c.job_status == "unemployed" then ["job"] else []) ++
      (if c.family_status == "problematic" || c.family_status == "no_contact" then
        ["social"] else []) := by
  have hfresh : ∀ blk ∈ checkinBlocks p c, p.tickets.any (matchesKey blk.cat) = false :=
    fun blk _ => no_openAuto_matchesKey p.tickets h blk.cat
  have hdist : (checkinBlocks p c).Pairwise (fun a b => a.cat ≠ b.cat) := by
    simp [checkinBlocks]
  have hmain := autoTicketBlocks_created_types p.tickets (checkinBlocks p c) hfresh hdist
  show ((autoTicketBlocks p.tickets (checkinBlocks p c)).2.1).map
      (fun t => t.ticket_type) = _
  rw [hmain]
  cases h1 : (c.mental_state == "bad") <;>
    cases h2 : (c.housing_status == "homeless") <;>
      cases h3 : (c.job_status == "unemployed") <;>
        cases h4 : (c.family_status == "problematic" || c.family_status == "no_contact") <;>
          simp [checkinBlocks, List.filter_cons, h1, h2, h3, h4]

/-- Witness for C8: the §8 scenario report on a ticketless profile creates
exactly one psychological, one job and one social ticket and no housing ticket. -/
theorem claim_C8_created_categories_witness :
    ((process_checkin sampleProfile sampleCheckin).2.created_tickets).map
        (fun t => t.ticket_type) = ["psychological", "job", "social"] := by
  have h := claim_C8_created_categories sampleProfile sampleCheckin (by decide)
  simpa [sampleCheckin] using h
